import Mathlib

/-!
Verification development for the Long Beach climate dashboard.

The repository is a three-page dashboard over a daily weather table.  This
file gives a shallow embedding of the parts of the code the claims are
about: the calendar / floating-holiday resolver of the Holiday Outlook
page, the shared CSV loader of the three pages, the annual / monthly /
top-N SQL queries of the Snapshot page, and the per-calendar-day summary
and dry-streak detector of the Climate History page.
-/

namespace LongBeachClimate

/-! ## Calendar model (proleptic Gregorian, as used by Python datetime / pandas)

`get_variable_holiday_dates` in `pages/2_Holiday Outlook.py` builds
`pd.date_range` objects and filters them by `dt.dayofweek` (Monday = 0).
We model calendar dates by (year, month, day) triples and day-of-week via
the proleptic-Gregorian ordinal, with ordinal 1 = 0001-01-01, a Monday. -/

def isLeap (y : Nat) : Bool :=
  (y % 4 == 0 && y % 100 != 0) || y % 400 == 0

def daysInMonth (y m : Nat) : Nat :=
  if m = 2 then (if isLeap y then 29 else 28)
  else if m = 4 ∨ m = 6 ∨ m = 9 ∨ m = 11 then 30
  else 31

def daysBeforeYear (y : Nat) : Nat :=
  365 * (y - 1) + (y - 1) / 4 + (y - 1) / 400 - (y - 1) / 100

def daysBeforeMonth (y m : Nat) : Nat :=
  ((List.range' 1 (m - 1)).map (daysInMonth y)).sum

/-- Proleptic-Gregorian ordinal of a date; 0001-01-01 has ordinal 1. -/
def toOrdinal (y m d : Nat) : Nat :=
  daysBeforeYear y + daysBeforeMonth y m + d

/-- Day of week with Monday = 0 (pandas `dt.dayofweek` convention);
0001-01-01 is a Monday. -/
def dayOfWeek (y m d : Nat) : Nat :=
  (toOrdinal y m d - 1) % 7

/-! ## Floating-holiday resolver (`get_variable_holiday_dates`)

The source builds, for each year in `range(1949, now.year + 1)`:
  * `memorial` = `max` of the Mondays among `pd.date_range(year-05-01, year-05-31)`;
  * `labor`    = `min` of the Mondays among `pd.date_range(year-09-01, year-09-07)`;
  * `thanksgiving` = element `iloc[3]` of the Thursdays among
    `pd.date_range(year-11-01, year-11-30)`.
We embed each as the day-of-month it resolves to. -/

def mondaysInMay (y : Nat) : List Nat :=
  (List.range' 1 31).filter (fun d => dayOfWeek y 5 d = 0)

def memorialDay (y : Nat) : Nat :=
  (mondaysInMay y).max?.getD 0

def mondaysInEarlySeptember (y : Nat) : List Nat :=
  (List.range' 1 7).filter (fun d => dayOfWeek y 9 d = 0)

def laborDay (y : Nat) : Nat :=
  (mondaysInEarlySeptember y).min?.getD 0

def novemberThursdays (y : Nat) : List Nat :=
  (List.range' 1 30).filter (fun d => dayOfWeek y 11 d = 3)

def thanksgivingDay (y : Nat) : Nat :=
  (novemberThursdays y).getD 3 0

/-! ## The daily-record data model

One row of the loaded weather table.  `date` is the proleptic-Gregorian
ordinal of the `Date` column (so "+ 1 day" is `+ 1` and `ORDER BY Date`
is the order on `Nat`); `year`, `month`, `day` are the fields the pages
derive with `dt.year` / `EXTRACT`; the four measurements are nullable. -/

structure Row where
  date : Nat
  year : Int
  month : Nat
  day : Nat
  tmin : Option ℚ
  tmax : Option ℚ
  tavg : Option ℚ
  prcp : Option ℚ
deriving DecidableEq

/-- SQL comparison `PRCP > q`: false when `PRCP` is NULL. -/
def prcpAbove (q : ℚ) (r : Row) : Bool :=
  match r.prcp with
  | some p => decide (q < p)
  | none => false

/-- Rational division, written so that it evaluates by kernel reduction
(the library's `Rat.inv` is irreducible); `qdiv_eq_div` below identifies
it with `/`. -/
def qdiv (a b : ℚ) : ℚ :=
  Rat.divInt (a.num * b.den) (a.den * b.num)

/-- Rational addition by kernel reduction; `qadd_eq_add` identifies it
with `+`. -/
def qadd (a b : ℚ) : ℚ :=
  Rat.divInt (a.num * (b.den : ℤ) + b.num * (a.den : ℤ)) ((a.den : ℤ) * (b.den : ℤ))

/-- Rational multiplication by kernel reduction; `qmul_eq_mul`
identifies it with `*`. -/
def qmul (a b : ℚ) : ℚ :=
  Rat.divInt (a.num * b.num) ((a.den : ℤ) * (b.den : ℤ))

/-- Sum of a list of rationals; `qsum_eq_sum` identifies it with
`List.sum`. -/
def qsum (l : List ℚ) : ℚ :=
  l.foldr qadd 0

/-- `⌊10 * x + 1/2⌋`, computed on the numerator and denominator. -/
def roundTenths (x : ℚ) : ℤ :=
  (20 * x.num + x.den).fdiv (2 * x.den)

/-- SQL `ROUND(x, 1)`: round to one decimal place (half up). -/
def round1 (x : ℚ) : ℚ :=
  Rat.divInt (roundTenths x) 10

/-! ## Dry-streak detector (`dry_streaks` query, page 3)

The SQL pipeline is:
  * `weather_clean`: rows with a non-null `Date`, ordered by `Date`, with
    `is_dry = 1` when `PRCP` is NULL or 0 — in the model every row has a
    date, so this stage is the sort by date;
  * `runs`: a running count (over the date order) of wet rows seen so
    far, so that the dry rows between two wet rows share one `wet_group`;
  * `streaks`: the groups of dry rows (`GROUP BY wet_group` restricted to
    `is_dry = 1`, i.e. the maximal runs of consecutive dry rows), keeping
    `MIN(Date)`, `MAX(Date)` and the row count, `HAVING COUNT(*) >= 150`;
  * `rain_on_next_day`: join each streak with the weather rows dated
    exactly `EndDate + 1` having `PRCP > 0.01`;
  * final projection renaming `RainDate` to `EndDate`.
-/

/-- `CASE WHEN PRCP IS NULL OR PRCP = 0 THEN 1 ELSE 0 END` as a Bool. -/
def is_dry (r : Row) : Bool :=
  match r.prcp with
  | none => true
  | some p => decide (p = 0)

/-- `ORDER BY Date` (dates are never null in the model). -/
def weather_clean (rows : List Row) : List Row :=
  List.insertionSort (fun a b => a.date ≤ b.date) rows

/-- Splits a list into the maximal runs of consecutive dry rows — the
groups produced by `GROUP BY wet_group ... WHERE is_dry = 1`, since the
running wet count is constant exactly on such runs.  `acc` holds the
current run, reversed. -/
def dryRunsAux : List Row → List Row → List (List Row)
  | [], acc => if acc = [] then [] else [acc.reverse]
  | r :: rs, acc =>
    if is_dry r then dryRunsAux rs (r :: acc)
    else if acc = [] then dryRunsAux rs []
    else acc.reverse :: dryRunsAux rs []

def dryRuns (rows : List Row) : List (List Row) :=
  dryRunsAux rows []

/-- One row of the `streaks` CTE. -/
structure Streak where
  StartDate : Nat
  EndDate : Nat
  StreakDays : Nat
deriving DecidableEq

/-- `MIN(Date)`, `MAX(Date)`, `COUNT(*)` of one dry group; the group is a
run of consecutive rows of the date-sorted table, so its minimum date is
the head and its maximum date is the last element. -/
def segStreak (seg : List Row) : Streak :=
  { StartDate := ((seg.head?).map Row.date).getD 0
    EndDate := ((seg.getLast?).map Row.date).getD 0
    StreakDays := seg.length }

/-- The `streaks` CTE: maximal dry runs with `HAVING COUNT(*) >= 150`. -/
def streaks (rows : List Row) : List Streak :=
  ((dryRuns (weather_clean rows)).filter (fun seg => 150 ≤ seg.length)).map segStreak

/-- The `rain_on_next_day` CTE: join each streak with the weather rows
dated `EndDate + INTERVAL 1 DAY` whose `PRCP > 0.01`. -/
def rain_on_next_day (rows : List Row) : List (Streak × Row) :=
  (streaks rows).flatMap (fun s =>
    ((rows.filter (fun w => w.date = s.EndDate + 1 && prcpAbove (mkRat 1 100) w)).map
      (fun w => (s, w))))

/-- One row of the final `dry_streaks` result: note the final `SELECT`
renames `RainDate` (the wet day after the run) to `EndDate`. -/
structure StreakReport where
  EndDate : Nat
  StartDate : Nat
  streak_length : Nat
  Rain : ℚ
deriving DecidableEq

def dry_streaks (rows : List Row) : List StreakReport :=
  (rain_on_next_day rows).map (fun p =>
    { EndDate := p.2.date
      StartDate := p.1.StartDate
      streak_length := p.1.StreakDays
      Rain := p.2.prcp.getD 0 })

/-! ## The synthetic 400-day series of the spec (claim C1)

Days 0–399; days 100–260 have precipitation 0, day 261 has 0.5, every
other day has precipitation 1 (positive). -/

def testRow (i : Nat) : Row :=
  { date := i, year := 0, month := 0, day := 0
    tmin := none, tmax := none, tavg := none
    prcp := if 100 ≤ i ∧ i ≤ 260 then some 0
            else if i = 261 then some (mkRat 1 2) else some 1 }

def testSeries : List Row :=
  (List.range 400).map testRow

/-! ## Per-calendar-day summary (`day_summary` query, page 3)

Only the `summary` CTE's chance-of-rain column is under study:
`ROUND(SUM(CASE WHEN PRCP > 0.01 THEN 1 ELSE 0 END) * 100.0 / COUNT(*), 1)`
over the rows whose `Date` has the selected month and day. -/

/-- The `filtered_data` CTE: rows matching the selected (month, day). -/
def filtered_data (rows : List Row) (m d : Nat) : List Row :=
  rows.filter (fun r => r.month = m ∧ r.day = d)

/-- `CASE WHEN PRCP > 0.01 THEN 1 ELSE 0 END` (NULL compares false). -/
def rainCase (r : Row) : ℚ :=
  match r.prcp with
  | some p => if mkRat 1 100 < p then 1 else 0
  | none => 0

/-- The `Chance of Rain (%)` column of the `summary` CTE. -/
def chance_of_rain (rows : List Row) (m d : Nat) : ℚ :=
  round1 (qdiv (qmul (qsum ((filtered_data rows m d).map rainCase)) 100)
    ((filtered_data rows m d).length))

/-- The chance-of-rain formula as the spec words it: `100 * count_true /
count_total` with `count_total` the matching rows whose precipitation is
non-null (claim C4's reference value). -/
def chance_of_rain_nonnullDenom (rows : List Row) (m d : Nat) : ℚ :=
  qdiv ((100 * ((filtered_data rows m d).filter (prcpAbove (mkRat 1 100))).length : ℕ) : ℚ)
    (((filtered_data rows m d).filter (fun r => r.prcp ≠ none)).length)

/-- Two July-15 records, one of them with NULL precipitation: the input
separating the two denominators. -/
def c4rows : List Row :=
  [ { date := 1, year := 2000, month := 7, day := 15
      tmin := none, tmax := none, tavg := none, prcp := some 1 },
    { date := 366, year := 2001, month := 7, day := 15
      tmin := none, tmax := none, tavg := none, prcp := none } ]

/-! ## Annual summaries (`annual_avg_sql`, `annual_total_prcp`, Snapshot)

`SELECT Year, AVG(TAVG) ... WHERE YEAR < 2025 GROUP BY Year ORDER BY Year`
and `SELECT Year, SUM(PRCP) ... WHERE Year < 2025 GROUP BY YEAR ORDER BY
YEAR`.  SQL `AVG` / `SUM` skip NULLs and are NULL on an all-NULL group. -/

structure AnnualRow where
  Year : Int
  value : Option ℚ
deriving DecidableEq

def listAvgOpt (l : List ℚ) : Option ℚ :=
  if l = [] then none else some (qdiv (qsum l) l.length)

def listSumOpt (l : List ℚ) : Option ℚ :=
  if l = [] then none else some (qsum l)

/-- The distinct years of the table that pass `Year < 2025`, ascending. -/
def yearsBelow2025 (rows : List Row) : List Int :=
  List.insertionSort (fun a b => a ≤ b)
    (((rows.map Row.year).dedup).filter (fun y => y < 2025))

def annual_avg_sql (rows : List Row) : List AnnualRow :=
  (yearsBelow2025 rows).map (fun y =>
    { Year := y, value := listAvgOpt ((rows.filter (fun r => r.year = y)).filterMap Row.tavg) })

def annual_total_prcp (rows : List Row) : List AnnualRow :=
  (yearsBelow2025 rows).map (fun y =>
    { Year := y, value := listSumOpt ((rows.filter (fun r => r.year = y)).filterMap Row.prcp) })

/-- A single record from the year 2024: when the dashboard runs during
2024, this is a record of the current in-progress year. -/
def row2024 : Row :=
  { date := toOrdinal 2024 7 1, year := 2024, month := 7, day := 1
    tmin := none, tmax := none, tavg := some 60, prcp := some 0 }

/-! ## Monthly temperature climatology (`monthly_temp_combined`, Snapshot)

`SELECT EXTRACT(MONTH ...), AVG(TMIN), AVG(TMAX), MIN(TMIN), MAX(TMAX)
FROM weather WHERE TMIN IS NOT NULL AND TMAX IS NOT NULL GROUP BY Month
ORDER BY Month`.  Months extracted from calendar dates lie in 1..12, so
grouping is modelled over the months 1..12 that have qualifying rows. -/

def bothTemps (r : Row) : Bool :=
  r.tmin.isSome && r.tmax.isSome

def monthTempGroup (rows : List Row) (m : Nat) : List Row :=
  (rows.filter bothTemps).filter (fun r => r.month = m)

def tminVal (r : Row) : ℚ := r.tmin.getD 0
def tmaxVal (r : Row) : ℚ := r.tmax.getD 0

def qListMin : List ℚ → ℚ
  | [] => 0
  | [x] => x
  | x :: y :: xs => min x (qListMin (y :: xs))

def qListMax : List ℚ → ℚ
  | [] => 0
  | [x] => x
  | x :: y :: xs => max x (qListMax (y :: xs))

def listMean (l : List ℚ) : ℚ :=
  qdiv (qsum l) l.length

structure MonthlyTempRow where
  Month : Nat
  AvgLow : ℚ
  AvgHigh : ℚ
  MinLow : ℚ
  MaxHigh : ℚ
deriving DecidableEq

def monthly_temp_combined (rows : List Row) : List MonthlyTempRow :=
  ((List.range' 1 12).filter (fun m => monthTempGroup rows m ≠ [])).map (fun m =>
    { Month := m
      AvgLow := listMean ((monthTempGroup rows m).map tminVal)
      AvgHigh := listMean ((monthTempGroup rows m).map tmaxVal)
      MinLow := qListMin ((monthTempGroup rows m).map tminVal)
      MaxHigh := qListMax ((monthTempGroup rows m).map tmaxVal) })

/-- Twelve months of data in which the January record has `tmin > tmax`
(a malformed measurement the query does not guard against). -/
def c6badRows : List Row :=
  (List.range' 1 12).map (fun m =>
    { date := m, year := 2000, month := m, day := 1
      tmin := some (if m = 1 then 70 else 10)
      tmax := some (if m = 1 then 10 else 70)
      tavg := none, prcp := none })

/-- Twelve months of well-formed data (`tmin ≤ tmax` everywhere). -/
def c6goodRows : List Row :=
  (List.range' 1 12).map (fun m =>
    { date := m, year := 2000, month := m, day := 1
      tmin := some 50, tmax := some 70, tavg := none, prcp := none })

/-! ## Top-10 extreme days (`warmest_days`, `coldest_days`, `wettest_days`)

Each query filters out NULLs of its metric, sorts by the metric in the
requested direction, and takes 10 rows (`LIMIT 10`). -/

structure DayVal where
  Date : Nat
  val : ℚ
deriving DecidableEq

/-- Descending order on the metric column. -/
def byValDesc (a b : DayVal) : Prop := b.val ≤ a.val

/-- Ascending order on the metric column. -/
def byValAsc (a b : DayVal) : Prop := a.val ≤ b.val

instance : DecidableRel byValDesc := fun a b =>
  inferInstanceAs (Decidable (b.val ≤ a.val))

instance : DecidableRel byValAsc := fun a b =>
  inferInstanceAs (Decidable (a.val ≤ b.val))

instance : IsTotal DayVal byValDesc := ⟨fun a b => le_total b.val a.val⟩
instance : IsTrans DayVal byValDesc := ⟨fun _ _ _ h1 h2 => le_trans h2 h1⟩
instance : IsTotal DayVal byValAsc := ⟨fun a b => le_total a.val b.val⟩
instance : IsTrans DayVal byValAsc := ⟨fun _ _ _ h1 h2 => le_trans h1 h2⟩

def warmest_days (rows : List Row) : List DayVal :=
  (List.insertionSort byValDesc
    ((rows.filter (fun r => r.tmax.isSome)).map (fun r => ⟨r.date, tmaxVal r⟩))).take 10

def coldest_days (rows : List Row) : List DayVal :=
  (List.insertionSort byValAsc
    ((rows.filter (fun r => r.tmin.isSome)).map (fun r => ⟨r.date, tminVal r⟩))).take 10

def prcpVal (r : Row) : ℚ := r.prcp.getD 0

def wettest_days (rows : List Row) : List DayVal :=
  (List.insertionSort byValDesc
    ((rows.filter (fun r => r.prcp.isSome)).map (fun r => ⟨r.date, prcpVal r⟩))).take 10

/-! ## The shared CSV loader (`load_data` of the three pages)

Each page defines the same function: read the CSV, trim whitespace from
the column labels, and keep the rows with `Date >= 1949-01-01`.  The raw
table (after CSV parsing, which is out of scope) is a list of column
labels together with the parsed daily rows. -/

structure RawTable where
  columns : List (List Char)
  rows : List Row
deriving DecidableEq

/-- Python `str.strip`: drop leading and trailing whitespace. -/
def strip (s : List Char) : List Char :=
  (((s.dropWhile Char.isWhitespace).reverse).dropWhile Char.isWhitespace).reverse

/-- Ordinal of 1949-01-01, the retention cutoff. -/
def epoch1949 : Nat := toOrdinal 1949 1 1

/-- `load_data` of `Snapshot.py`. -/
def load_data_snapshot (t : RawTable) : RawTable :=
  { columns := t.columns.map strip
    rows := t.rows.filter (fun r => epoch1949 ≤ r.date) }

/-- `load_data` of `pages/2_Holiday Outlook.py`. -/
def load_data_holiday (t : RawTable) : RawTable :=
  { columns := t.columns.map strip
    rows := t.rows.filter (fun r => epoch1949 ≤ r.date) }

/-- `load_data` of `pages/3_Climate History By Day.py`. -/
def load_data_history (t : RawTable) : RawTable :=
  { columns := t.columns.map strip
    rows := t.rows.filter (fun r => epoch1949 ≤ r.date) }

/-- The normalized dataset as claim C9 words it: column labels trimmed of
surrounding whitespace, rows restricted to dates on or after 1949-01-01,
kept rows unaltered. -/
def normalize_spec (t : RawTable) : RawTable :=
  { columns := t.columns.map strip
    rows := t.rows.filter (fun r => epoch1949 ≤ r.date) }

/-! ## Holiday-page fills and chance of rain (page 2)

`weather_df["TMAX"] = TMAX.fillna(TAVG)`, `weather_df["PRCP"] =
PRCP.fillna(0)`, then per holiday
`precip_chance = (holiday_df["PRCP"] > 0).mean() * 100`. -/

def fillRow (r : Row) : Row :=
  { r with
    tmax := match r.tmax with
            | some v => some v
            | none => r.tavg
    prcp := some (r.prcp.getD 0) }

/-- Whether a row's precipitation is recorded and positive. -/
def prcpPositive (r : Row) : Bool :=
  match r.prcp with
  | some p => decide (0 < p)
  | none => false

def boolToRat (b : Bool) : ℚ := if b then 1 else 0

/-- `(df["PRCP"] > 0).mean() * 100`. -/
def precip_chance (l : List Row) : ℚ :=
  qmul (qdiv (qsum (l.map (fun r => boolToRat (prcpPositive r)))) (l.length)) 100

/-- Two holiday records, one with NULL precipitation, one wet. -/
def c10rows : List Row :=
  [ { date := 1, year := 1950, month := 12, day := 25
      tmin := none, tmax := none, tavg := some 60, prcp := none },
    { date := 366, year := 1951, month := 12, day := 25
      tmin := none, tmax := some 65, tavg := some 58, prcp := some 2 } ]

/-- The conjunction of the three floating-holiday rules for one year:
the resolver's Memorial Day is the last Monday of May, its Labor Day is
the first Monday of September, and its Thanksgiving is the fourth
Thursday of November. -/
def holidayResolverOK (y : Nat) : Prop :=
  (dayOfWeek y 5 (memorialDay y) = 0 ∧ memorialDay y ∈ List.range' 1 31 ∧
    ∀ d ∈ List.range' 1 31, dayOfWeek y 5 d = 0 → d ≤ memorialDay y) ∧
  (dayOfWeek y 9 (laborDay y) = 0 ∧ laborDay y ∈ List.range' 1 30 ∧
    ∀ d ∈ List.range' 1 30, dayOfWeek y 9 d = 0 → laborDay y ≤ d) ∧
  (dayOfWeek y 11 (thanksgivingDay y) = 3 ∧ thanksgivingDay y ∈ List.range' 1 30 ∧
    ((novemberThursdays y).filter (fun d => d < thanksgivingDay y)).length = 3)

instance (y : Nat) : Decidable (holidayResolverOK y) := by
  unfold holidayResolverOK; infer_instance

theorem qdiv_eq_div (a b : ℚ) : qdiv a b = a / b :=
  (Rat.div_def' a b).symm

theorem qadd_eq_add (a b : ℚ) : qadd a b = a + b := by
  have ha : ((a.den : ℤ)) ≠ 0 := Int.natCast_ne_zero.mpr a.den_nz
  have hb : ((b.den : ℤ)) ≠ 0 := Int.natCast_ne_zero.mpr b.den_nz
  rw [qadd, ← Rat.divInt_add_divInt a.num b.num ha hb,
    Rat.num_divInt_den, Rat.num_divInt_den]

theorem qmul_eq_mul (a b : ℚ) : qmul a b = a * b := by
  rw [qmul, ← Rat.divInt_mul_divInt' a.num (a.den : ℤ) b.num (b.den : ℤ),
    Rat.num_divInt_den, Rat.num_divInt_den]

theorem qsum_eq_sum (l : List ℚ) : qsum l = l.sum := by
  induction l with
  | nil => rfl
  | cons x t ih => rw [qsum, List.foldr_cons, qadd_eq_add, List.sum_cons, ← qsum, ih]

/-- `prcpAbove` holds exactly on recorded precipitation above `q`. -/
theorem prcpAbove_eq_true {q : ℚ} {r : Row} :
    prcpAbove q r = true ↔ ∃ p, r.prcp = some p ∧ q < p := by
  cases h : r.prcp with
  | none => simp [prcpAbove, h]
  | some p => simp [prcpAbove, h]

/-! ## Claim theorems -/

set_option maxRecDepth 100000 in
/-- C1: on the synthetic 400-day series (days 100–260 dry, day 261 with
precipitation 0.5, all other days wet), the detector computes exactly one
qualifying streak, starting day 100, ending day 260, 161 days long, and
the reported record carries breaking rain 0.5 dated day 261 (the final
`SELECT` exposes the rain date in its `EndDate` column). -/
theorem dry_streak_detector_test_series :
    streaks testSeries = [{ StartDate := 100, EndDate := 260, StreakDays := 161 }] ∧
    dry_streaks testSeries =
      [{ EndDate := 261, StartDate := 100, streak_length := 161, Rain := mkRat 1 2 }] := by
  decide

/-- C3: every streak the detector reports has length at least 150; in
particular a 149-day dry run is never reported. -/
theorem reported_streak_length_ge_150 (rows : List Row) :
    ∀ o ∈ dry_streaks rows, 150 ≤ o.streak_length := by
  intro o ho
  simp only [dry_streaks, List.mem_map] at ho
  obtain ⟨p, hp, rfl⟩ := ho
  simp only [rain_on_next_day, List.mem_flatMap, List.mem_map] at hp
  obtain ⟨s, hs, w, hw, rfl⟩ := hp
  simp only [streaks, List.mem_map, List.mem_filter] at hs
  obtain ⟨seg, ⟨hseg, hlen⟩, rfl⟩ := hs
  simpa [segStreak] using of_decide_eq_true hlen

set_option maxRecDepth 100000 in
/-- Witness for C3 at the synthetic series. -/
theorem reported_streak_length_ge_150_witness :
    150 ≤ (StreakReport.mk 261 100 161 (mkRat 1 2)).streak_length :=
  reported_streak_length_ge_150 testSeries _ (by decide)

/-- C2: a qualifying maximal dry run (an entry of the `streaks` CTE) is
reported if and only if the dataset has a record dated exactly one day
after the run's end with precipitation above 0.01; and no reported record
lacks breaking rain — every reported `Rain` exceeds 0.01. -/
theorem streak_reported_iff_next_day_rain (rows : List Row) (s : Streak)
    (hs : s ∈ streaks rows) :
    ((∃ o ∈ dry_streaks rows, o.StartDate = s.StartDate ∧ o.EndDate = s.EndDate + 1 ∧
        o.streak_length = s.StreakDays) ↔
      ∃ w ∈ rows, w.date = s.EndDate + 1 ∧ prcpAbove (mkRat 1 100) w = true) ∧
    ∀ o ∈ dry_streaks rows, mkRat 1 100 < o.Rain := by
  constructor
  · constructor
    · rintro ⟨o, ho, hstart, hend, hlen⟩
      simp only [dry_streaks, List.mem_map] at ho
      obtain ⟨p, hp, rfl⟩ := ho
      simp only [rain_on_next_day, List.mem_flatMap, List.mem_map] at hp
      obtain ⟨t, ht, w, hw, rfl⟩ := hp
      simp only [List.mem_filter, Bool.and_eq_true, decide_eq_true_eq] at hw
      exact ⟨w, hw.1, hend, hw.2.2⟩
    · rintro ⟨w, hw, hdate, habove⟩
      refine ⟨{ EndDate := w.date, StartDate := s.StartDate,
                streak_length := s.StreakDays, Rain := w.prcp.getD 0 }, ?_, rfl, hdate, rfl⟩
      simp only [dry_streaks, List.mem_map]
      refine ⟨(s, w), ?_, rfl⟩
      simp only [rain_on_next_day, List.mem_flatMap, List.mem_map]
      exact ⟨s, hs, w, by simp [List.mem_filter, hw, hdate, habove], rfl⟩
  · intro o ho
    simp only [dry_streaks, List.mem_map] at ho
    obtain ⟨p, hp, rfl⟩ := ho
    simp only [rain_on_next_day, List.mem_flatMap, List.mem_map] at hp
    obtain ⟨t, ht, w, hw, rfl⟩ := hp
    simp only [List.mem_filter, Bool.and_eq_true] at hw
    obtain ⟨q, hq, hlt⟩ := prcpAbove_eq_true.mp hw.2.2
    simpa [hq] using hlt

set_option maxRecDepth 100000 in
/-- Witness for C2 at the synthetic series and its unique streak. -/
theorem streak_reported_iff_next_day_rain_witness :
    ((∃ o ∈ dry_streaks testSeries, o.StartDate = (100:Nat) ∧ o.EndDate = 260 + 1 ∧
        o.streak_length = 161) ↔
      ∃ w ∈ testSeries, w.date = 260 + 1 ∧ prcpAbove (mkRat 1 100) w = true) ∧
    ∀ o ∈ dry_streaks testSeries, mkRat 1 100 < o.Rain :=
  streak_reported_iff_next_day_rain testSeries
    { StartDate := 100, EndDate := 260, StreakDays := 161 } (by decide)

set_option maxRecDepth 40000 in
/-- C8: for every year from 1949 through the current year (2026 at the
time of verification), the resolver returns the last Monday of May for
Memorial Day, the first Monday of September for Labor Day, and the
fourth Thursday of November for Thanksgiving. -/
theorem holiday_resolver_correct (y : Nat) (h1 : 1949 ≤ y) (h2 : y ≤ 2026) :
    holidayResolverOK y := by
  have key : ∀ z ∈ List.range' 1949 78, holidayResolverOK z := by decide
  refine key y ?_
  simp only [List.mem_range'_1]
  omega

/-- Witness for C8 at 2024. -/
theorem holiday_resolver_correct_witness : holidayResolverOK 2024 :=
  holiday_resolver_correct 2024 (by decide) (by decide)

/-- Indicator sums count the rows a Boolean predicate accepts. -/
theorem sum_boolToRat (p : Row → Bool) (l : List Row) :
    qsum (l.map (fun r => boolToRat (p r))) = ((l.filter p).length : ℚ) := by
  rw [qsum_eq_sum]
  induction l with
  | nil => simp
  | cons r t ih =>
    rw [List.map_cons, List.sum_cons, ih, List.filter_cons]
    cases hb : p r
    · simp [boolToRat]
    · simp only [boolToRat, if_true, List.length_cons]
      push_cast
      ring

/-- The `CASE` column is the indicator of `prcpAbove 0.01`. -/
theorem rainCase_eq (r : Row) :
    rainCase r = boolToRat (prcpAbove (mkRat 1 100) r) := by
  cases h : r.prcp <;> simp [rainCase, prcpAbove, boolToRat, h]

/-- C4 counterexample: on two July-15 rows, one with NULL precipitation
and one wet, the query divides by the total row count (yielding 50%),
not by the count of rows with non-null precipitation (which would give
100%). -/
theorem chance_of_rain_denominator_cex :
    chance_of_rain c4rows 7 15 ≠ chance_of_rain_nonnullDenom c4rows 7 15 := by
  decide

/-- C4 amended: the chance-of-rain percentage equals `ROUND(100 *
(count of matching rows with precipitation > 0.01) / N, 1)` where `N`
counts ALL matching rows, those with NULL precipitation included. -/
theorem chance_of_rain_denominator (rows : List Row) (m d : Nat) :
    chance_of_rain rows m d =
      round1 (qdiv
        ((100 * ((filtered_data rows m d).filter (prcpAbove (mkRat 1 100))).length : ℕ) : ℚ)
        ((filtered_data rows m d).length)) := by
  have hc : ((100 * ((filtered_data rows m d).filter (prcpAbove (mkRat 1 100))).length : ℕ) : ℚ)
      = (((filtered_data rows m d).filter (prcpAbove (mkRat 1 100))).length : ℚ) * 100 := by
    push_cast
    ring
  rw [chance_of_rain, List.map_congr_left (fun r _ => rainCase_eq r),
    sum_boolToRat (prcpAbove (mkRat 1 100)), qmul_eq_mul, hc]

/-- C5 counterexample: running during 2024 on a table holding a 2024
record, both annual queries report year 2024 — the then-current
in-progress year — because the filter is the constant `Year < 2025`,
not a comparison with the current year. -/
theorem annual_includes_running_year :
    (2024:Int) ∈ (annual_avg_sql [row2024]).map AnnualRow.Year ∧
    (2024:Int) ∈ (annual_total_prcp [row2024]).map AnnualRow.Year ∧
    ¬ ((2024:Int) < 2024) := by
  decide

/-- C5 amended: every year either annual query reports is strictly below
the hardcoded constant 2025 (which excludes the current in-progress year
only when the current year is at least 2025). -/
theorem annual_years_below_2025 (rows : List Row) :
    (∀ a ∈ annual_avg_sql rows, a.Year < 2025) ∧
    (∀ a ∈ annual_total_prcp rows, a.Year < 2025) := by
  have h : ∀ y ∈ yearsBelow2025 rows, y < (2025:Int) := by
    intro y hy
    simp only [yearsBelow2025, List.mem_insertionSort, List.mem_filter,
      decide_eq_true_eq] at hy
    exact hy.2
  refine ⟨?_, ?_⟩ <;> intro a ha <;>
    simp only [annual_avg_sql, annual_total_prcp, List.mem_map] at ha <;>
    obtain ⟨y, hy, rfl⟩ := ha <;> exact h y hy

/-- Witness for the amended C5 at a one-row table from 2024. -/
theorem annual_years_below_2025_witness :
    (AnnualRow.mk 2024 (some 60)).Year < 2025 :=
  (annual_years_below_2025 [row2024]).1 _ (by decide)

theorem qListMin_le {l : List ℚ} {x : ℚ} (hx : x ∈ l) : qListMin l ≤ x := by
  induction l with
  | nil => cases hx
  | cons a t ih =>
    cases t with
    | nil =>
      rw [List.mem_singleton] at hx
      subst hx
      exact le_refl _
    | cons b u =>
      rcases List.mem_cons.mp hx with rfl | hx2
      · exact min_le_left _ _
      · exact le_trans (min_le_right _ _) (ih hx2)

theorem le_qListMax {l : List ℚ} {x : ℚ} (hx : x ∈ l) : x ≤ qListMax l := by
  induction l with
  | nil => cases hx
  | cons a t ih =>
    cases t with
    | nil =>
      rw [List.mem_singleton] at hx
      subst hx
      exact le_refl _
    | cons b u =>
      rcases List.mem_cons.mp hx with rfl | hx2
      · exact le_max_left _ _
      · exact le_trans (ih hx2) (le_max_right _ _)

theorem mul_length_le_sum {l : List ℚ} {m : ℚ} (h : ∀ x ∈ l, m ≤ x) :
    m * l.length ≤ l.sum := by
  induction l with
  | nil => simp
  | cons a t ih =>
    have h1 := ih (fun x hx => h x (List.mem_cons_of_mem a hx))
    have h2 := h a (List.mem_cons_self a t)
    simp only [List.sum_cons, List.length_cons]
    push_cast
    nlinarith [h1, h2]

theorem sum_le_mul_length {l : List ℚ} {m : ℚ} (h : ∀ x ∈ l, x ≤ m) :
    l.sum ≤ m * l.length := by
  induction l with
  | nil => simp
  | cons a t ih =>
    have h1 := ih (fun x hx => h x (List.mem_cons_of_mem a hx))
    have h2 := h a (List.mem_cons_self a t)
    simp only [List.sum_cons, List.length_cons]
    push_cast
    nlinarith [h1, h2]

theorem qListMin_le_mean {l : List ℚ} (hne : l ≠ []) : qListMin l ≤ listMean l := by
  rw [listMean, qsum_eq_sum, qdiv_eq_div]
  have hlen : (0:ℚ) < l.length := by
    have h := List.length_pos.mpr hne
    exact_mod_cast h
  rw [le_div_iff₀ hlen]
  exact mul_length_le_sum (fun x hx => qListMin_le hx)

theorem mean_le_qListMax {l : List ℚ} (hne : l ≠ []) : listMean l ≤ qListMax l := by
  rw [listMean, qsum_eq_sum, qdiv_eq_div]
  have hlen : (0:ℚ) < l.length := by
    have h := List.length_pos.mpr hne
    exact_mod_cast h
  rw [div_le_iff₀ hlen]
  exact sum_le_mul_length (fun x hx => le_qListMax hx)

theorem listMean_le_listMean {l : List Row} {f g : Row → ℚ}
    (h : ∀ r ∈ l, f r ≤ g r) : listMean (l.map f) ≤ listMean (l.map g) := by
  rcases eq_or_ne l [] with rfl | hne
  · exact le_refl _
  · have hlen : (0:ℚ) < l.length := by
      have hp := List.length_pos.mpr hne
      exact_mod_cast hp
    rw [listMean, listMean, qsum_eq_sum, qsum_eq_sum, qdiv_eq_div, qdiv_eq_div,
      List.length_map, List.length_map]
    exact (div_le_div_iff_of_pos_right hlen).mpr (List.sum_le_sum h)

/-- C6 counterexample: with all twelve months populated by rows whose
`tmin`/`tmax` are both non-null but with January's record inverted
(`tmin = 70 > tmax = 10`), the climatology emits a row violating
`AvgLow ≤ AvgHigh`: the query never checks `tmin ≤ tmax`. -/
theorem monthly_climatology_cex :
    (∀ m ∈ List.range' 1 12, ∃ r ∈ c6badRows, r.month = m ∧ bothTemps r = true) ∧
    ∃ row ∈ monthly_temp_combined c6badRows, ¬ (row.AvgLow ≤ row.AvgHigh) := by
  decide

/-- C6 amended: for a dataset in which every month 1–12 has a row with
both temperatures non-null AND in which every record with both
temperatures present satisfies `tmin ≤ tmax`, the climatology returns
exactly one row per month ordered 1 to 12, and each row satisfies
`MinLow ≤ AvgLow ≤ AvgHigh ≤ MaxHigh`. -/
theorem monthly_climatology_rows (rows : List Row)
    (hmonths : ∀ m ∈ List.range' 1 12, ∃ r ∈ rows, r.month = m ∧ bothTemps r = true)
    (hwf : ∀ r ∈ rows, bothTemps r = true → tminVal r ≤ tmaxVal r) :
    ((monthly_temp_combined rows).map MonthlyTempRow.Month = List.range' 1 12) ∧
    ∀ row ∈ monthly_temp_combined rows,
      row.MinLow ≤ row.AvgLow ∧ row.AvgLow ≤ row.AvgHigh ∧ row.AvgHigh ≤ row.MaxHigh := by
  have hne : ∀ m ∈ List.range' 1 12, monthTempGroup rows m ≠ [] := by
    intro m hm
    obtain ⟨r, hr, hrm, hrb⟩ := hmonths m hm
    have hin : r ∈ monthTempGroup rows m := by
      simp only [monthTempGroup, List.mem_filter]
      exact ⟨⟨hr, hrb⟩, by simp [hrm]⟩
    exact List.ne_nil_of_mem hin
  have hfil : (List.range' 1 12).filter (fun m => monthTempGroup rows m ≠ []) =
      List.range' 1 12 :=
    List.filter_eq_self.mpr (fun m hm => decide_eq_true (hne m hm))
  constructor
  · simp only [monthly_temp_combined, hfil, List.map_map]
    exact List.map_id _
  · intro row hrow
    simp only [monthly_temp_combined, hfil, List.mem_map] at hrow
    obtain ⟨m, hmr, rfl⟩ := hrow
    have hg : monthTempGroup rows m ≠ [] := hne m hmr
    have hgsub : ∀ r ∈ monthTempGroup rows m, r ∈ rows ∧ bothTemps r = true := by
      intro r hr
      simp only [monthTempGroup, List.mem_filter] at hr
      exact ⟨hr.1.1, hr.1.2⟩
    have hminne : (monthTempGroup rows m).map tminVal ≠ [] := by
      simpa using hg
    have hmaxne : (monthTempGroup rows m).map tmaxVal ≠ [] := by
      simpa using hg
    exact ⟨qListMin_le_mean hminne,
      listMean_le_listMean (fun r hr => hwf r (hgsub r hr).1 (hgsub r hr).2),
      mean_le_qListMax hmaxne⟩

/-- Witness for the amended C6 at twelve well-formed monthly records. -/
theorem monthly_climatology_rows_witness :
    ((monthly_temp_combined c6goodRows).map MonthlyTempRow.Month = List.range' 1 12) ∧
    ∀ row ∈ monthly_temp_combined c6goodRows,
      row.MinLow ≤ row.AvgLow ∧ row.AvgLow ≤ row.AvgHigh ∧ row.AvgHigh ≤ row.MaxHigh :=
  monthly_climatology_rows c6goodRows (by decide) (by decide)

/-- Shape of each top-10 query: at most ten rows, sorted by the metric,
and every output row witnessed by an input record whose metric is
non-null. -/
theorem topTen_spec (rows : List Row) (sel : Row → Option ℚ) (ord : DayVal → DayVal → Prop)
    [DecidableRel ord] [IsTotal DayVal ord] [IsTrans DayVal ord] :
    ((List.insertionSort ord ((rows.filter (fun r => (sel r).isSome)).map
        (fun r => ⟨r.date, (sel r).getD 0⟩))).take 10).length ≤ 10 ∧
    List.Sorted ord ((List.insertionSort ord ((rows.filter (fun r => (sel r).isSome)).map
        (fun r => ⟨r.date, (sel r).getD 0⟩))).take 10) ∧
    ∀ p ∈ (List.insertionSort ord ((rows.filter (fun r => (sel r).isSome)).map
        (fun r => ⟨r.date, (sel r).getD 0⟩))).take 10,
      ∃ r ∈ rows, sel r = some p.val ∧ r.date = p.Date := by
  refine ⟨List.length_take_le _ _, ?_, ?_⟩
  · exact (List.sorted_insertionSort ord _).sublist (List.take_sublist _ _)
  · intro p hp
    have hp2 := (List.mem_insertionSort ord).mp (List.take_subset _ _ hp)
    obtain ⟨r, hr, rfl⟩ := List.mem_map.mp hp2
    have hr2 := List.mem_filter.mp hr
    obtain ⟨v, hv⟩ := Option.isSome_iff_exists.mp hr2.2
    exact ⟨r, hr2.1, by simp [hv], rfl⟩

/-- C7: each top-extreme-days query returns at most 10 rows, sorted by
its metric in the requested direction (max temperature descending, min
temperature ascending, precipitation descending), and never includes a
row whose value for that metric is null. -/
theorem top_extreme_days_spec (rows : List Row) :
    ((warmest_days rows).length ≤ 10 ∧ List.Sorted byValDesc (warmest_days rows) ∧
      ∀ p ∈ warmest_days rows, ∃ r ∈ rows, r.tmax = some p.val ∧ r.date = p.Date) ∧
    ((coldest_days rows).length ≤ 10 ∧ List.Sorted byValAsc (coldest_days rows) ∧
      ∀ p ∈ coldest_days rows, ∃ r ∈ rows, r.tmin = some p.val ∧ r.date = p.Date) ∧
    ((wettest_days rows).length ≤ 10 ∧ List.Sorted byValDesc (wettest_days rows) ∧
      ∀ p ∈ wettest_days rows, ∃ r ∈ rows, r.prcp = some p.val ∧ r.date = p.Date) :=
  ⟨topTen_spec rows Row.tmax byValDesc, topTen_spec rows Row.tmin byValAsc,
    topTen_spec rows Row.prcp byValDesc⟩

/-- Witness for C7: the record with a non-null maximum temperature in
`c10rows` heads the warmest-days list. -/
theorem top_extreme_days_spec_witness :
    ∃ r ∈ c10rows, r.tmax = some (DayVal.mk 366 65).val ∧ r.date = (DayVal.mk 366 65).Date :=
  (top_extreme_days_spec c10rows).1.2.2 (DayVal.mk 366 65) (by decide)

/-- C9: the three pages' loaders are extensionally equal, and each equals
the spec-described normalization (trim the column labels, keep exactly
the rows dated on or after 1949-01-01, alter nothing else — the kept
rows form a sublist of the input). -/
theorem loaders_extensionally_equal (t : RawTable) :
    load_data_snapshot t = normalize_spec t ∧
    load_data_holiday t = normalize_spec t ∧
    load_data_history t = normalize_spec t ∧
    load_data_snapshot t = load_data_holiday t ∧
    load_data_holiday t = load_data_history t ∧
    (load_data_snapshot t).rows.Sublist t.rows :=
  ⟨rfl, rfl, rfl, rfl, rfl, List.filter_sublist _⟩

/-- C10: the holiday page replaces a null max temperature by the row's
average temperature and a null precipitation by 0 before aggregating;
consequently its chance of rain is `100 *` (days with positive
precipitation) `/` (all matching days), an originally-null day counting
as dry in the denominator. -/
theorem holiday_fill_and_rain_chance (rows : List Row) :
    (∀ r ∈ rows, (fillRow r).prcp = some (r.prcp.getD 0) ∧
        ((r.tmax = none → (fillRow r).tmax = r.tavg) ∧
         ∀ v, r.tmax = some v → (fillRow r).tmax = some v)) ∧
    precip_chance (rows.map fillRow) =
      100 * ((rows.filter prcpPositive).length : ℚ) / rows.length := by
  constructor
  · intro r _
    exact ⟨rfl, fun h => by simp [fillRow, h], fun v h => by simp [fillRow, h]⟩
  · rw [precip_chance, List.map_map]
    have hmap : rows.map ((fun r => boolToRat (prcpPositive r)) ∘ fillRow)
        = rows.map (fun r => boolToRat (prcpPositive r)) :=
      List.map_congr_left (fun r _ => by
        cases h : r.prcp <;> simp [Function.comp, fillRow, prcpPositive, h])
    rw [hmap, sum_boolToRat prcpPositive rows, qmul_eq_mul, qdiv_eq_div, List.length_map]
    ring

/-- Witness for C10 at two holiday records, one with null precipitation:
the chance of rain is the wet-day count over both days. -/
theorem holiday_fill_and_rain_chance_witness :
    precip_chance (c10rows.map fillRow) =
      100 * ((c10rows.filter prcpPositive).length : ℚ) / c10rows.length :=
  (holiday_fill_and_rain_chance c10rows).2

/-- Witness for the amended C4 at the two-row July-15 table. -/
theorem chance_of_rain_denominator_witness :
    chance_of_rain c4rows 7 15 =
      round1 (qdiv
        ((100 * ((filtered_data c4rows 7 15).filter (prcpAbove (mkRat 1 100))).length : ℕ) : ℚ)
        ((filtered_data c4rows 7 15).length)) :=
  chance_of_rain_denominator c4rows 7 15

/-- Witness for C9 at the empty raw table. -/
theorem loaders_extensionally_equal_witness :
    load_data_snapshot (RawTable.mk [] []) = normalize_spec (RawTable.mk [] []) ∧
    load_data_holiday (RawTable.mk [] []) = normalize_spec (RawTable.mk [] []) ∧
    load_data_history (RawTable.mk [] []) = normalize_spec (RawTable.mk [] []) ∧
    load_data_snapshot (RawTable.mk [] []) = load_data_holiday (RawTable.mk [] []) ∧
    load_data_holiday (RawTable.mk [] []) = load_data_history (RawTable.mk [] []) ∧
    (load_data_snapshot (RawTable.mk [] [])).rows.Sublist ((RawTable.mk [] [] : RawTable)).rows :=
  loaders_extensionally_equal (RawTable.mk [] [])

end LongBeachClimate
